import Mathlib

/-!
Shallow embedding of the vCPU execution engine of the `simple_hv` hypervisor
(`exercises/simple_hv/src/main.rs`): the guest register context, the
hypervisor-call (SBI) decode step, the vmexit dispatcher, the guest-context
initialization, and the launch run loop.

Machine integers (`usize` on riscv64) are modelled as `Nat` with explicit
reduction modulo `2 ^ 64` where the code performs wrapping arithmetic.
Hardware ambient state (the trap cause register `scause`, the trap value
register `stval`, the hypervisor CSR file) is passed explicitly.
-/

namespace SimpleHv

/-- `usize` wrap-around on the 64-bit target (release-profile semantics of
Rust integer addition). -/
def wrap64 (n : Nat) : Nat := n % 2 ^ 64

/-- Modelled from the spec: `regs.rs` is absent from the sources; §3 describes
the general-purpose register file as an ordered set of 32 slots indexable by a
symbolic register-name enumeration. We use the riscv index space `Fin 32`. -/
abbrev GprIndex := Fin 32

/-- Register `a0` is riscv general-purpose register `x10`. -/
def A0 : GprIndex := 10

/-- Register `a1` is riscv general-purpose register `x11`. -/
def A1 : GprIndex := 11

/-- The general-purpose register file of the guest (or of the host mirror). -/
abbrev Gprs := GprIndex → Nat

/-- `GeneralPurposeRegisters::reg`: read one register by symbolic index. -/
def Gprs.reg (g : Gprs) (i : GprIndex) : Nat := g i

/-- `GeneralPurposeRegisters::a_regs`: the argument-register window
`a0 ..= a7` (riscv `x10 ..= x17`). -/
def Gprs.a_regs (g : Gprs) : Fin 8 → Nat :=
  fun i => g ⟨10 + i.val, by omega⟩

/-- The guest-visible privileged state loaded on entry to guest mode:
general-purpose registers, the resume program counter `sepc`, and the two
status CSR images `hstatus` and `sstatus` (fields of `vcpu.rs`'s
`GuestCpuState` that `main.rs` reads and writes). -/
structure GuestCpuState where
  gprs : Gprs
  sepc : Nat
  hstatus : Nat
  sstatus : Nat

/-- `VmCpuRegisters`: the per-vCPU context; `hyp_regs` is the mirror register
set saved by the context-switch boundary, never inspected by the dispatcher. -/
structure VmCpuRegisters where
  guest_regs : GuestCpuState
  hyp_regs : Gprs

/-- Modelled from the spec: `axhal::paging::MappingFlags` is absent from the
sources; §6 gives the requested-permission set as a subset of
`\x7bREAD, WRITE, EXECUTE\x7d`. -/
structure MappingFlags where
  read : Bool
  write : Bool
  execute : Bool
deriving DecidableEq, Repr

/-- `MappingFlags::READ | MappingFlags::WRITE | MappingFlags::EXECUTE`. -/
def rwxFlags : MappingFlags := ⟨true, true, true⟩

/-- Modelled from the spec: the `AddrSpace` collaborator (§3, §6) is opaque to
the core beyond its fault-repair operation; we record the sequence of
fault-repair invocations (address, requested permissions). -/
structure AddrSpace where
  faultCalls : List (Nat × MappingFlags)

/-- `AddrSpace::handle_page_fault`: request a mapping covering `vaddr` with
the given permissions; modelled as logging the invocation. -/
def AddrSpace.handle_page_fault (us : AddrSpace) (vaddr : Nat)
    (flags : MappingFlags) : AddrSpace :=
  ⟨us.faultCalls ++ [(vaddr, flags)]⟩

/-- Modelled from the spec: `sbi.rs` is absent from the sources; §3 gives the
decoded hypervisor call as a discriminated variant over a shutdown/reset
request carrying the two guest-supplied reason codes, and an unsupported
extension carrying the raw extension identifier. -/
inductive SbiMessage where
  | Reset (code0 code1 : Nat)
  | Unsupported (ext : Nat)
deriving DecidableEq, Repr

/-- Modelled from the spec: the designated extension identifier recognized as
the shutdown/reset call (§4.5 fixes only that one extension id is recognized;
we use the legacy SBI shutdown extension id 8 — its numeric value is
immaterial to the claims). -/
def shutdownExtId : Nat := 8

/-- Modelled from the spec: the function identifier of the shutdown call;
§8's end-to-end scenario fixes `function = 0`. -/
def shutdownFuncId : Nat := 0

/-- Modelled from the spec: `SbiMessage::from_regs` (§4.5) — decode the
argument-register window. The extension and function discriminants occupy the
fixed high argument-register slots `a7` and `a6`; the low slots carry the
payload. An unrecognized extension id always yields `Unsupported` (§8); a
recognized extension with a malformed function id fails to decode. -/
def SbiMessage.from_regs (a : Fin 8 → Nat) : Option SbiMessage :=
  if a 7 = shutdownExtId then
    if a 6 = shutdownFuncId then some (.Reset (a 0) (a 1)) else none
  else
    some (.Unsupported (a 7))

/-- The trap causes distinguished by `vmexit_handler`'s match on
`scause.cause()`: the three named exceptions and a catch-all over every other
raw cause value (other exceptions and interrupts). -/
inductive Trap where
  | VirtualSupervisorEnvCall
  | IllegalInstruction
  | LoadGuestPageFault
  | Other (raw : Nat)
deriving DecidableEq, Repr

/-- The hardware trap registers read by the dispatcher right after a vmexit:
the classified `scause` cause and the `stval` trap value. -/
structure HwState where
  cause : Trap
  stval : Nat

/-- Outcome of one dispatcher invocation: either a normal return carrying the
termination flag and the (possibly updated) context and address space, or a
process abort (`panic!` / `todo!` / failed `assert_eq!`). -/
inductive HandlerOutcome where
  | ret (terminate : Bool) (ctx : VmCpuRegisters) (us : AddrSpace)
  | abort (msg : String)

/-- `ctx.guest_regs.sepc += 4` (wrapping on the 64-bit target). -/
def bumpSepc (ctx : VmCpuRegisters) : VmCpuRegisters :=
  { ctx with guest_regs :=
      { ctx.guest_regs with sepc := wrap64 (ctx.guest_regs.sepc + 4) } }

/-- `vmexit_handler` (main.rs:81-149): classify the exit cause and dispatch.
- `VirtualSupervisorEnvCall`: decode the SBI message; a `Reset` message
  asserts `a0 = 0x6688` and `a1 = 0x1234` (failed assertion aborts) and
  terminates; any other decoded message hits `todo!()`; a decode failure hits
  `panic!("bad sbi message! ")`.
- `IllegalInstruction`: skip the instruction (`sepc += 4`).
- `LoadGuestPageFault`: repair the mapping at `stval` with
  READ|WRITE|EXECUTE, then `sepc += 4`.
- anything else: report and continue unchanged. -/
def vmexit_handler (hw : HwState) (ctx : VmCpuRegisters) (us : AddrSpace) :
    HandlerOutcome :=
  match hw.cause with
  | .VirtualSupervisorEnvCall =>
    match SbiMessage.from_regs ctx.guest_regs.gprs.a_regs with
    | some (.Reset _ _) =>
      if ctx.guest_regs.gprs.reg A0 = 0x6688 then
        if ctx.guest_regs.gprs.reg A1 = 0x1234 then
          .ret true ctx us
        else
          .abort "assertion failed: a1 = 0x1234"
      else
        .abort "assertion failed: a0 = 0x6688"
    | some (.Unsupported _) => .abort "not yet implemented"
    | none => .abort "bad sbi message! "
  | .IllegalInstruction => .ret false (bumpSepc ctx) us
  | .LoadGuestPageFault =>
    .ret false (bumpSepc ctx) (us.handle_page_fault hw.stval rwxFlags)
  | .Other _ => .ret false ctx us

/-- `x ||| 2 ^ i`: set a one-bit CSR field to 1 (the effect of
`tock_registers` `modify` with a set one-bit field value). -/
def setBit (x i : Nat) : Nat := x ||| 2 ^ i

/-- Modelled from the spec: `csrs.rs` is absent from the sources; the riscv
privileged architecture places the `hstatus.SPV` field at bit 7. -/
def hstatusSpvBit : Nat := 7

/-- Modelled from the spec: the riscv privileged architecture places the
`hstatus.SPVP` field at bit 8. -/
def hstatusSpvpBit : Nat := 8

/-- Modelled from the spec: the riscv privileged architecture places the
`sstatus.SPP` field at bit 8. -/
def sstatusSppBit : Nat := 8

/-- The hardware CSRs read or written by `prepare_guest_context`: the
`hstatus` and `sstatus` registers, passed explicitly instead of as ambient
state (§9). -/
structure CsrFile where
  hstatus : Nat
  sstatus : Nat
deriving DecidableEq, Repr

/-- `VM_ENTRY`: the fixed guest-physical entry address of the guest image. -/
def VM_ENTRY : Nat := 0x80200000

/-- `prepare_guest_context` (main.rs:151-168): read the hardware `hstatus`,
set its SPV field to Guest and its SPVP field to Supervisor, write the result
back to the `hstatus` CSR and into the context; read the hardware `sstatus`,
set SPP to Supervisor in a local copy stored into the context (the `sstatus`
CSR itself is not written); set the resume program counter to `VM_ENTRY`.
Returns the CSR file after the call together with the populated context. -/
def prepare_guest_context (csr : CsrFile) (ctx : VmCpuRegisters) :
    CsrFile × VmCpuRegisters :=
  let hstatus := setBit (setBit csr.hstatus hstatusSpvBit) hstatusSpvpBit
  let sstatus := setBit csr.sstatus sstatusSppBit
  (⟨hstatus, csr.sstatus⟩,
   { ctx with guest_regs :=
      { ctx.guest_regs with
          hstatus := hstatus
          sstatus := sstatus
          sepc := VM_ENTRY } })

/-- One context switch into the guest, as observed by the host: the guest's
effect on the guest-visible register state during its time slice, and the
trap cause and trap value with which it exits back. -/
structure ExitEvent where
  touch : GuestCpuState → GuestCpuState
  cause : Trap
  stval : Nat

/-- `run_guest` (main.rs:72-78): `_run_guest` runs the guest (which may
rewrite the guest-visible registers) until it traps, then the vmexit handler
dispatches on the trap. -/
def runGuest (e : ExitEvent) (ctx : VmCpuRegisters) (us : AddrSpace) :
    HandlerOutcome :=
  vmexit_handler ⟨e.cause, e.stval⟩
    { ctx with guest_regs := e.touch ctx.guest_regs } us

/-- Externally observable outcome of `main`'s run loop on a finite script of
exit events: an abort (every `panic!`, including the final
`panic!("Hypervisor ok!")` after the loop exits), a hypothetical normal
return from `main` (never produced by this code), or still looping when the
script is exhausted. -/
inductive MainOutcome where
  | abortOut (msg : String)
  | normalReturn
  | pending (ctx : VmCpuRegisters) (us : AddrSpace)

/-- The run loop of `main` (main.rs:56-58):
`while !run_guest(&mut ctx, &mut uspace) \x7b\x7d` followed by
`panic!("Hypervisor ok!")`. -/
def runLoop : List ExitEvent → VmCpuRegisters → AddrSpace → MainOutcome
  | [], ctx, us => .pending ctx us
  | e :: rest, ctx, us =>
    match runGuest e ctx us with
    | .abort m => .abortOut m
    | .ret true _ _ => .abortOut "Hypervisor ok!"
    | .ret false ctx' us' => runLoop rest ctx' us'

/-- Does an optional decoded message hold a shutdown/reset request? -/
def isResetMsg : Option SbiMessage → Bool
  | some (.Reset _ _) => true
  | _ => false

/-! Concrete states used to exercise the theorems on closed inputs. -/

/-- An all-zero register file. -/
def zeroGprs : Gprs := fun _ => 0

/-- An address space with no fault-repair invocations recorded yet. -/
def us0 : AddrSpace := ⟨[]⟩

/-- Argument registers of a well-formed shutdown call with the agreed magic
codes: `a7` holds the shutdown extension id, `a6` the function id 0,
`a0 = 0x6688`, `a1 = 0x1234`. -/
def shutGprs : Gprs := fun i =>
  if i.val = 17 then shutdownExtId
  else if i.val = 10 then 0x6688
  else if i.val = 11 then 0x1234
  else 0

/-- A shutdown call whose first reason code is wrong (`a0 = 0x1111`). -/
def badGprs : Gprs := fun i =>
  if i.val = 17 then shutdownExtId
  else if i.val = 10 then 0x1111
  else if i.val = 11 then 0x1234
  else 0

/-- A hypervisor call to an unrecognized extension (`a7 = 3`). -/
def unsupGprs : Gprs := fun i => if i.val = 17 then 3 else 0

/-- A context at the guest entry point with an all-zero register file. -/
def ctx0 : VmCpuRegisters := ⟨⟨zeroGprs, VM_ENTRY, 0, 0⟩, zeroGprs⟩

/-- A context issuing the well-formed shutdown call. -/
def ctxShut : VmCpuRegisters := ⟨⟨shutGprs, VM_ENTRY, 0, 0⟩, zeroGprs⟩

/-- A context issuing the shutdown call with a wrong first magic code. -/
def ctxBad : VmCpuRegisters := ⟨⟨badGprs, VM_ENTRY, 0, 0⟩, zeroGprs⟩

/-- A context issuing a call to an unrecognized extension. -/
def ctxUnsup : VmCpuRegisters := ⟨⟨unsupGprs, VM_ENTRY, 0, 0⟩, zeroGprs⟩

/-- A hypervisor-call exit. -/
def hwEcall : HwState := ⟨.VirtualSupervisorEnvCall, 0⟩

/-- An illegal-instruction exit. -/
def hwIllegal : HwState := ⟨.IllegalInstruction, 0xdead⟩

/-- A load-guest-page-fault exit at guest-physical address `0x90001000`. -/
def hwFault : HwState := ⟨.LoadGuestPageFault, 0x90001000⟩

/-- An exit with an unhandled raw cause. -/
def hwOther : HwState := ⟨.Other 5, 0x77⟩

/-- A context switch in which the guest changes nothing and exits with a
hypervisor call. -/
def shutEvent : ExitEvent := ⟨id, .VirtualSupervisorEnvCall, 0⟩

/-- C1: for every vmexit, the vmexit handler returns the termination signal
`true` if and only if the exit is a hypervisor-call exit that decodes to a
shutdown/reset call whose two payload registers equal the magic codes
`0x6688` and `0x1234`; for every illegal-instruction, guest-page-fault, or
unhandled exit it returns `false`. -/
theorem vmexit_handler_true_iff_shutdown (hw : HwState) (ctx : VmCpuRegisters)
    (us : AddrSpace) (b : Bool) (ctx' : VmCpuRegisters) (us' : AddrSpace)
    (h : vmexit_handler hw ctx us = .ret b ctx' us') :
    (b = true ↔ hw.cause = Trap.VirtualSupervisorEnvCall ∧
      isResetMsg (SbiMessage.from_regs ctx.guest_regs.gprs.a_regs) = true ∧
      ctx.guest_regs.gprs.reg A0 = 0x6688 ∧
      ctx.guest_regs.gprs.reg A1 = 0x1234) ∧
    ((hw.cause = Trap.IllegalInstruction ∨ hw.cause = Trap.LoadGuestPageFault ∨
      ∃ r, hw.cause = Trap.Other r) → b = false) := by
  obtain ⟨cause, stval⟩ := hw
  cases cause with
  | VirtualSupervisorEnvCall =>
    rcases hd : SbiMessage.from_regs ctx.guest_regs.gprs.a_regs with _ | msg
    · simp [vmexit_handler, hd] at h
    · cases msg with
      | Reset c0 c1 =>
        by_cases h0 : ctx.guest_regs.gprs.reg A0 = 0x6688
        · by_cases h1 : ctx.guest_regs.gprs.reg A1 = 0x1234
          · simp only [vmexit_handler, hd, h0, h1, if_true] at h
            obtain ⟨hb, _, _⟩ := HandlerOutcome.ret.inj h
            constructor
            · constructor
              · intro _
                exact ⟨rfl, by simp [isResetMsg, hd], h0, h1⟩
              · intro _
                exact hb.symm
            · intro hc
              rcases hc with hc | hc | ⟨r, hc⟩ <;> simp at hc
          · simp [vmexit_handler, hd, h0, h1] at h
        · simp [vmexit_handler, hd, h0] at h
      | Unsupported e =>
        simp [vmexit_handler, hd] at h
  | IllegalInstruction =>
    simp only [vmexit_handler] at h
    obtain ⟨hb, _, _⟩ := HandlerOutcome.ret.inj h
    constructor
    · constructor
      · intro ht
        rw [ht] at hb
        exact absurd hb (by simp)
      · intro ⟨hc, _⟩
        simp at hc
    · intro _
      exact hb.symm
  | LoadGuestPageFault =>
    simp only [vmexit_handler] at h
    obtain ⟨hb, _, _⟩ := HandlerOutcome.ret.inj h
    constructor
    · constructor
      · intro ht
        rw [ht] at hb
        exact absurd hb (by simp)
      · intro ⟨hc, _⟩
        simp at hc
    · intro _
      exact hb.symm
  | Other r =>
    simp only [vmexit_handler] at h
    obtain ⟨hb, _, _⟩ := HandlerOutcome.ret.inj h
    constructor
    · constructor
      · intro ht
        rw [ht] at hb
        exact absurd hb (by simp)
      · intro ⟨hc, _⟩
        simp at hc
    · intro _
      exact hb.symm

/-- C1 witness: the theorem applied to a concrete well-formed shutdown exit,
on which the handler evaluates to `.ret true`. -/
theorem vmexit_handler_true_iff_shutdown_witness :
    (true = true ↔ hwEcall.cause = Trap.VirtualSupervisorEnvCall ∧
      isResetMsg (SbiMessage.from_regs ctxShut.guest_regs.gprs.a_regs) = true ∧
      ctxShut.guest_regs.gprs.reg A0 = 0x6688 ∧
      ctxShut.guest_regs.gprs.reg A1 = 0x1234) ∧
    ((hwEcall.cause = Trap.IllegalInstruction ∨
      hwEcall.cause = Trap.LoadGuestPageFault ∨
      ∃ r, hwEcall.cause = Trap.Other r) → true = false) :=
  vmexit_handler_true_iff_shutdown hwEcall ctxShut us0 true ctxShut us0 rfl

/-- C2: if a hypervisor-call exit decodes to a shutdown/reset call but either
payload register differs from the agreed magic pair `(0x6688, 0x1234)`, the
handler aborts the process and never produces the termination signal
`true`. -/
theorem reset_wrong_magic_aborts (hw : HwState) (ctx : VmCpuRegisters)
    (us : AddrSpace) (hc : hw.cause = Trap.VirtualSupervisorEnvCall)
    (hm : isResetMsg (SbiMessage.from_regs ctx.guest_regs.gprs.a_regs) = true)
    (hbad : ¬(ctx.guest_regs.gprs.reg A0 = 0x6688 ∧
      ctx.guest_regs.gprs.reg A1 = 0x1234)) :
    ∃ msg, vmexit_handler hw ctx us = .abort msg := by
  obtain ⟨cause, stval⟩ := hw
  simp only at hc
  subst hc
  rcases hd : SbiMessage.from_regs ctx.guest_regs.gprs.a_regs with _ | msg
  · rw [hd] at hm
    simp [isResetMsg] at hm
  · cases msg with
    | Reset c0 c1 =>
      by_cases h0 : ctx.guest_regs.gprs.reg A0 = 0x6688
      · by_cases h1 : ctx.guest_regs.gprs.reg A1 = 0x1234
        · exact absurd ⟨h0, h1⟩ hbad
        · exact ⟨"assertion failed: a1 = 0x1234",
            by simp [vmexit_handler, hd, h0, h1]⟩
      · exact ⟨"assertion failed: a0 = 0x6688",
          by simp [vmexit_handler, hd, h0]⟩
    | Unsupported e =>
      rw [hd] at hm
      simp [isResetMsg] at hm

/-- C2 witness: the concrete shutdown call with wrong first code
`(0x1111, 0x1234)` makes the handler abort. -/
theorem reset_wrong_magic_aborts_witness :
    ∃ msg, vmexit_handler hwEcall ctxBad us0 = .abort msg :=
  reset_wrong_magic_aborts hwEcall ctxBad us0 rfl (by decide) (by decide)

/-- C3: for every hypervisor-call exit, a decode failure aborts the process,
and a successful decode yielding any message other than a shutdown/reset
(an unsupported extension) is also fatal; in neither case does the handler
return and continue the loop. -/
theorem sbi_decode_failure_or_unsupported_aborts (hw : HwState)
    (ctx : VmCpuRegisters) (us : AddrSpace)
    (hc : hw.cause = Trap.VirtualSupervisorEnvCall)
    (hm : SbiMessage.from_regs ctx.guest_regs.gprs.a_regs = none ∨
      ∃ e, SbiMessage.from_regs ctx.guest_regs.gprs.a_regs =
        some (.Unsupported e)) :
    ∃ msg, vmexit_handler hw ctx us = .abort msg := by
  obtain ⟨cause, stval⟩ := hw
  simp only at hc
  subst hc
  rcases hm with hd | ⟨e, hd⟩
  · exact ⟨"bad sbi message! ", by simp [vmexit_handler, hd]⟩
  · exact ⟨"not yet implemented", by simp [vmexit_handler, hd]⟩

/-- C3 witness: a call to the unrecognized extension id 3 decodes to
`Unsupported` and makes the handler abort. -/
theorem sbi_decode_failure_or_unsupported_aborts_witness :
    ∃ msg, vmexit_handler hwEcall ctxUnsup us0 = .abort msg :=
  sbi_decode_failure_or_unsupported_aborts hwEcall ctxUnsup us0 rfl
    (Or.inr ⟨3, by decide⟩)

/-- C4: for every guest-page-fault exit, the handler invokes the address
space's fault-repair operation exactly once, with the faulting address taken
from the trap value register and the permission set READ+WRITE+EXECUTE,
advances the guest resume program counter by exactly 4, and returns `false`
with every other context field unchanged. -/
theorem guest_page_fault_repairs_and_advances (hw : HwState)
    (ctx : VmCpuRegisters) (us : AddrSpace)
    (hc : hw.cause = Trap.LoadGuestPageFault)
    (hs : ctx.guest_regs.sepc + 4 < 2 ^ 64) :
    ∃ ctx' us', vmexit_handler hw ctx us = .ret false ctx' us' ∧
      us'.faultCalls = us.faultCalls ++ [(hw.stval, rwxFlags)] ∧
      ctx'.guest_regs.sepc = ctx.guest_regs.sepc + 4 ∧
      ctx'.guest_regs.gprs = ctx.guest_regs.gprs ∧
      ctx'.guest_regs.hstatus = ctx.guest_regs.hstatus ∧
      ctx'.guest_regs.sstatus = ctx.guest_regs.sstatus ∧
      ctx'.hyp_regs = ctx.hyp_regs := by
  obtain ⟨cause, stval⟩ := hw
  simp only at hc
  subst hc
  refine ⟨bumpSepc ctx, us.handle_page_fault stval rwxFlags, rfl, rfl, ?_,
    rfl, rfl, rfl, rfl⟩
  exact Nat.mod_eq_of_lt hs

/-- C4 witness: the theorem applied to a concrete page-fault exit at
guest-physical address `0x90001000`. -/
theorem guest_page_fault_repairs_and_advances_witness :
    ∃ ctx' us', vmexit_handler hwFault ctx0 us0 = .ret false ctx' us' ∧
      us'.faultCalls = us0.faultCalls ++ [(hwFault.stval, rwxFlags)] ∧
      ctx'.guest_regs.sepc = ctx0.guest_regs.sepc + 4 ∧
      ctx'.guest_regs.gprs = ctx0.guest_regs.gprs ∧
      ctx'.guest_regs.hstatus = ctx0.guest_regs.hstatus ∧
      ctx'.guest_regs.sstatus = ctx0.guest_regs.sstatus ∧
      ctx'.hyp_regs = ctx0.hyp_regs :=
  guest_page_fault_repairs_and_advances hwFault ctx0 us0 rfl (by decide)

/-- C5: for every illegal-instruction exit, the handler attempts no
emulation: its only state change is advancing the guest resume program
counter by exactly 4, and it returns `false` with the address space and every
other context field unchanged. -/
theorem illegal_instruction_skips (hw : HwState) (ctx : VmCpuRegisters)
    (us : AddrSpace) (hc : hw.cause = Trap.IllegalInstruction)
    (hs : ctx.guest_regs.sepc + 4 < 2 ^ 64) :
    ∃ ctx', vmexit_handler hw ctx us = .ret false ctx' us ∧
      ctx'.guest_regs.sepc = ctx.guest_regs.sepc + 4 ∧
      ctx'.guest_regs.gprs = ctx.guest_regs.gprs ∧
      ctx'.guest_regs.hstatus = ctx.guest_regs.hstatus ∧
      ctx'.guest_regs.sstatus = ctx.guest_regs.sstatus ∧
      ctx'.hyp_regs = ctx.hyp_regs := by
  obtain ⟨cause, stval⟩ := hw
  simp only at hc
  subst hc
  exact ⟨bumpSepc ctx, rfl, Nat.mod_eq_of_lt hs, rfl, rfl, rfl, rfl⟩

/-- C5 witness: the theorem applied to a concrete illegal-instruction exit at
the guest entry point. -/
theorem illegal_instruction_skips_witness :
    ∃ ctx', vmexit_handler hwIllegal ctx0 us0 = .ret false ctx' us0 ∧
      ctx'.guest_regs.sepc = ctx0.guest_regs.sepc + 4 ∧
      ctx'.guest_regs.gprs = ctx0.guest_regs.gprs ∧
      ctx'.guest_regs.hstatus = ctx0.guest_regs.hstatus ∧
      ctx'.guest_regs.sstatus = ctx0.guest_regs.sstatus ∧
      ctx'.hyp_regs = ctx0.hyp_regs :=
  illegal_instruction_skips hwIllegal ctx0 us0 rfl (by decide)

/-- C6: for every exit with an unhandled cause, the handler performs no
mapping or emulation and returns `false` with the guest context and the
address space both exactly unchanged. -/
theorem unhandled_exit_identity (hw : HwState) (ctx : VmCpuRegisters)
    (us : AddrSpace) (r : Nat) (hc : hw.cause = Trap.Other r) :
    vmexit_handler hw ctx us = .ret false ctx us := by
  obtain ⟨cause, stval⟩ := hw
  simp only at hc
  subst hc
  rfl

/-- C6 witness: the theorem applied to a concrete unhandled exit (raw cause
5), which leaves the context and address space untouched. -/
theorem unhandled_exit_identity_witness :
    vmexit_handler hwOther ctx0 us0 = .ret false ctx0 us0 :=
  unhandled_exit_identity hwOther ctx0 us0 5 rfl

/-- C7: guest-context initialization produces a context whose resume program
counter equals the entry address (the fixed `VM_ENTRY`), whose `hstatus`
field has the SPV bit set (Guest) and the SPVP bit set (Supervisor), and
whose `sstatus` field has SPP set (Supervisor). -/
theorem prepare_guest_context_spec (csr : CsrFile) (ctx : VmCpuRegisters) :
    (prepare_guest_context csr ctx).2.guest_regs.sepc = VM_ENTRY ∧
    Nat.testBit (prepare_guest_context csr ctx).2.guest_regs.hstatus
      hstatusSpvBit = true ∧
    Nat.testBit (prepare_guest_context csr ctx).2.guest_regs.hstatus
      hstatusSpvpBit = true ∧
    Nat.testBit (prepare_guest_context csr ctx).2.guest_regs.sstatus
      sstatusSppBit = true := by
  refine ⟨rfl, ?_, ?_, ?_⟩
  · show Nat.testBit
      (setBit (setBit csr.hstatus hstatusSpvBit) hstatusSpvpBit)
      hstatusSpvBit = true
    simp only [setBit, hstatusSpvBit, hstatusSpvpBit, Nat.testBit_or,
      Bool.or_eq_true]
    exact Or.inl (Or.inr (by decide))
  · show Nat.testBit
      (setBit (setBit csr.hstatus hstatusSpvBit) hstatusSpvpBit)
      hstatusSpvpBit = true
    simp only [setBit, hstatusSpvpBit, Nat.testBit_or, Bool.or_eq_true]
    exact Or.inr (by decide)
  · show Nat.testBit (setBit csr.sstatus sstatusSppBit) sstatusSppBit = true
    simp only [setBit, sstatusSppBit, Nat.testBit_or, Bool.or_eq_true]
    exact Or.inr (by decide)

/-- C8 counterexample: starting from an all-zero CSR file, guest-context
initialization leaves the hardware CSR file changed — main.rs:159 writes the
`hstatus` CSR — refuting the claim that initialization writes no CSR. -/
theorem prepare_guest_context_writes_csr_counterexample :
    (prepare_guest_context ⟨0, 0⟩ ctx0).1 ≠ (⟨0, 0⟩ : CsrFile) := by decide

/-- C8 amended: guest-context initialization's only side effect beyond the
populated context is one CSR write: it stores into the `hstatus` CSR exactly
the `hstatus` value it also records in the context; the `sstatus` CSR is left
unchanged, and no context field other than the guest registers it fills in
(in particular not the saved host registers or the general-purpose register
file) is mutated. -/
theorem prepare_guest_context_effects (csr : CsrFile) (ctx : VmCpuRegisters) :
    (prepare_guest_context csr ctx).1.hstatus =
      (prepare_guest_context csr ctx).2.guest_regs.hstatus ∧
    (prepare_guest_context csr ctx).1.sstatus = csr.sstatus ∧
    (prepare_guest_context csr ctx).2.hyp_regs = ctx.hyp_regs ∧
    (prepare_guest_context csr ctx).2.guest_regs.gprs =
      ctx.guest_regs.gprs :=
  ⟨rfl, rfl, rfl, rfl⟩

/-- The run loop never produces a normal return from `main`: every exit from
the loop funnels into a `panic!`. -/
theorem runLoop_ne_normalReturn (s : List ExitEvent) :
    ∀ c u, runLoop s c u ≠ MainOutcome.normalReturn := by
  induction s with
  | nil =>
    intro c u h
    simp [runLoop] at h
  | cons e rest ih =>
    intro c u
    simp only [runLoop]
    split
    · intro h
      simp at h
    · intro h
      simp at h
    · exact ih _ _

/-- C9 counterexample: on the concrete run in which the guest immediately
issues the valid shutdown call with the agreed magic codes, the host
terminates via the final `panic!("Hypervisor ok!")` — an abort, not a normal
process exit — refuting the claim that a valid shutdown terminates the
process normally. -/
theorem shutdown_terminates_by_panic_counterexample :
    runLoop [shutEvent] ctxShut us0 =
      MainOutcome.abortOut "Hypervisor ok!" ∧
    runLoop [shutEvent] ctxShut us0 ≠ MainOutcome.normalReturn := by
  constructor
  · rfl
  · intro h
    rw [show runLoop [shutEvent] ctxShut us0 =
      MainOutcome.abortOut "Hypervisor ok!" from rfl] at h
    exact MainOutcome.noConfusion h

/-- C9 amended: when the run loop exits because the dispatcher returned
`true` (valid shutdown call with the agreed magic codes), the host terminates
via the final panic carrying the success message "Hypervisor ok!", and the
run loop never produces a normal return from `main` on any input: every
terminal condition, the valid shutdown included, ends in a panic,
distinguished only by its diagnostic message. -/
theorem run_loop_shutdown_panics_ok (e : ExitEvent) (rest : List ExitEvent)
    (ctx ctx' : VmCpuRegisters) (us us' : AddrSpace)
    (h : runGuest e ctx us = .ret true ctx' us') :
    runLoop (e :: rest) ctx us = MainOutcome.abortOut "Hypervisor ok!" ∧
    ∀ s c u, runLoop s c u ≠ MainOutcome.normalReturn := by
  constructor
  · simp only [runLoop]
    rw [h]
  · exact fun s => runLoop_ne_normalReturn s

/-- C9 witness: the amended theorem applied to the concrete one-event run in
which the guest issues the valid shutdown call. -/
theorem run_loop_shutdown_panics_ok_witness :
    runLoop [shutEvent] ctxShut us0 =
      MainOutcome.abortOut "Hypervisor ok!" ∧
    ∀ s c u, runLoop s c u ≠ MainOutcome.normalReturn :=
  run_loop_shutdown_panics_ok shutEvent [] ctxShut ctxShut us0 us0 rfl

/-- C10: on every path through the vmexit handler that returns, the
general-purpose registers, `hstatus`, `sstatus`, and the saved host registers
are never written; the resume program counter is advanced by exactly 4 in
the illegal-instruction and load-guest-page-fault branches and is unchanged
in the hypervisor-call and unhandled branches; and on the terminating
shutdown path the context and address space are returned entirely
unchanged. -/
theorem vmexit_handler_frame (hw : HwState) (ctx : VmCpuRegisters)
    (us : AddrSpace) (b : Bool) (ctx' : VmCpuRegisters) (us' : AddrSpace)
    (h : vmexit_handler hw ctx us = .ret b ctx' us')
    (hs : ctx.guest_regs.sepc + 4 < 2 ^ 64) :
    ctx'.guest_regs.gprs = ctx.guest_regs.gprs ∧
    ctx'.guest_regs.hstatus = ctx.guest_regs.hstatus ∧
    ctx'.guest_regs.sstatus = ctx.guest_regs.sstatus ∧
    ctx'.hyp_regs = ctx.hyp_regs ∧
    ((hw.cause = Trap.IllegalInstruction ∨
      hw.cause = Trap.LoadGuestPageFault) →
      ctx'.guest_regs.sepc = ctx.guest_regs.sepc + 4) ∧
    ((hw.cause = Trap.VirtualSupervisorEnvCall ∨
      ∃ r, hw.cause = Trap.Other r) →
      ctx'.guest_regs.sepc = ctx.guest_regs.sepc) ∧
    (b = true → ctx' = ctx ∧ us' = us) := by
  obtain ⟨cause, stval⟩ := hw
  cases cause with
  | VirtualSupervisorEnvCall =>
    rcases hd : SbiMessage.from_regs ctx.guest_regs.gprs.a_regs with _ | msg
    · simp [vmexit_handler, hd] at h
    · cases msg with
      | Reset c0 c1 =>
        by_cases h0 : ctx.guest_regs.gprs.reg A0 = 0x6688
        · by_cases h1 : ctx.guest_regs.gprs.reg A1 = 0x1234
          · simp only [vmexit_handler, hd, h0, h1, if_true] at h
            obtain ⟨hb, hctx, hus⟩ := HandlerOutcome.ret.inj h
            subst hctx
            subst hus
            refine ⟨rfl, rfl, rfl, rfl, ?_, fun _ => rfl,
              fun _ => ⟨rfl, rfl⟩⟩
            intro hc
            rcases hc with hc | hc <;> simp at hc
          · simp [vmexit_handler, hd, h0, h1] at h
        · simp [vmexit_handler, hd, h0] at h
      | Unsupported e =>
        simp [vmexit_handler, hd] at h
  | IllegalInstruction =>
    simp only [vmexit_handler] at h
    obtain ⟨hb, hctx, hus⟩ := HandlerOutcome.ret.inj h
    subst hctx
    subst hus
    refine ⟨rfl, rfl, rfl, rfl, fun _ => Nat.mod_eq_of_lt hs, ?_, ?_⟩
    · intro hc
      rcases hc with hc | ⟨r, hc⟩ <;> simp at hc
    · intro hb'
      rw [hb'] at hb
      exact absurd hb (by simp)
  | LoadGuestPageFault =>
    simp only [vmexit_handler] at h
    obtain ⟨hb, hctx, hus⟩ := HandlerOutcome.ret.inj h
    subst hctx
    subst hus
    refine ⟨rfl, rfl, rfl, rfl, fun _ => Nat.mod_eq_of_lt hs, ?_, ?_⟩
    · intro hc
      rcases hc with hc | ⟨r, hc⟩ <;> simp at hc
    · intro hb'
      rw [hb'] at hb
      exact absurd hb (by simp)
  | Other r =>
    simp only [vmexit_handler] at h
    obtain ⟨hb, hctx, hus⟩ := HandlerOutcome.ret.inj h
    subst hctx
    subst hus
    refine ⟨rfl, rfl, rfl, rfl, ?_, fun _ => rfl, ?_⟩
    · intro hc
      rcases hc with hc | hc <;> simp at hc
    · intro hb'
      rw [hb'] at hb
      exact absurd hb (by simp)

/-- C10 witness: the frame theorem applied to a concrete illegal-instruction
exit, on which the handler evaluates to `.ret false (bumpSepc ctx0) us0`. -/
theorem vmexit_handler_frame_witness :
    (bumpSepc ctx0).guest_regs.gprs = ctx0.guest_regs.gprs ∧
    (bumpSepc ctx0).guest_regs.hstatus = ctx0.guest_regs.hstatus ∧
    (bumpSepc ctx0).guest_regs.sstatus = ctx0.guest_regs.sstatus ∧
    (bumpSepc ctx0).hyp_regs = ctx0.hyp_regs ∧
    ((hwIllegal.cause = Trap.IllegalInstruction ∨
      hwIllegal.cause = Trap.LoadGuestPageFault) →
      (bumpSepc ctx0).guest_regs.sepc = ctx0.guest_regs.sepc + 4) ∧
    ((hwIllegal.cause = Trap.VirtualSupervisorEnvCall ∨
      ∃ r, hwIllegal.cause = Trap.Other r) →
      (bumpSepc ctx0).guest_regs.sepc = ctx0.guest_regs.sepc) ∧
    (false = true → bumpSepc ctx0 = ctx0 ∧ us0 = us0) :=
  vmexit_handler_frame hwIllegal ctx0 us0 false (bumpSepc ctx0) us0 rfl
    (by decide)

end SimpleHv
